import Mathlib

/-!
Shallow embedding of the SciScript-Python CasJobs client
(`src/py3/SciServer/constants.py`, `src/py3/SciServer/utils.py`,
`src/py3/SciServer/CasJobs.py`) together with theorems settling the
claims about it.  HTTP transport, JSON serialization and the pandas
library are external collaborators; they are represented by explicit
data (a `Request` value that would be issued, a structured body in
place of a serialized one, a response record handed in by the caller).
Everything the repository itself computes — strings, headers, URL
substitution, the polling loop, the task-name state — is translated
directly from the source.
-/

set_option maxHeartbeats 1000000

namespace SciServer

/-- From `constants.py`: `_join_str(*args, sep=" ")`, i.e. Python's
`sep.join(args)`. -/
def _join_str : List String → String → String
  | [], _ => ""
  | [a], _ => a
  | a :: b :: rest, sep => a ++ sep ++ _join_str (b :: rest) sep

/-- Python `str.replace` on character lists, recursion bounded by a
fuel that the wrapper sets to the subject's length (each step consumes
at least one character, so the fallback arm is never reached there):
replaces every (left-to-right, non-overlapping) occurrence of `pat` by
`rep`.  The `pat ≠ []` guard matches the non-empty placeholders the
source substitutes. -/
def replaceCharsFuel (pat rep : List Char) : Nat → List Char → List Char
  | _, [] => []
  | 0, l => l
  | fuel + 1, c :: rest =>
    if pat ≠ [] ∧ pat.isPrefixOf (c :: rest) then
      rep ++ replaceCharsFuel pat rep fuel (rest.drop (pat.length - 1))
    else
      c :: replaceCharsFuel pat rep fuel rest

/-- Python `str.replace` on character lists. -/
def replaceChars (l pat rep : List Char) : List Char :=
  replaceCharsFuel pat rep l.length l

/-- Python `str.replace` on strings. -/
def pyreplace (s pat rep : String) : String :=
  ⟨replaceChars s.toList pat.toList rep.toList⟩

namespace DCONST

def JOB_ID : String := "<job_id>"

def TABLENAME_ID : String := "<tablename>"

def HTTP_CODE_ID : String := "<code>"

def CONTEXT_ID : String := "<context>"

def TASKNAME_ID : String := "<taskname>"

end DCONST

namespace EXCEPT

def LOGIN_ERROR : String := "User token is not defined. First log into SciServer."

def SCHEMA_ERROR : String := "Error when getting schema name."

def GET_TABLE_ERROR : String :=
  _join_str ["Error when getting table description",
    "from database context " ++ DCONST.CONTEXT_ID ++ ".\n"] " "

def ILLEGAL_FORMAT_ERROR : String :=
  _join_str ["Error when executing query. Illegal format parameter specification: "] " "

def EXECUTE_QUERY_ERROR : String := "Error when executing query."

def SUMBIT_JOB_ERROR : String := "Error when submitting a job."

def GET_JOB_STATUS_ERROR : String :=
  _join_str ["Error when getting the status of job " ++ DCONST.JOB_ID ++ ".\n"] " "

def CANCEL_JOB_ERROR : String := "Error when canceling job " ++ DCONST.JOB_ID ++ ".\n"

def UPLOAD_CSV_ERROR : String :=
  _join_str ["Error when uploading CSV data into",
    "CasJobs table " ++ DCONST.TABLENAME_ID ++ ".\n"] " "

def HTTP_ERROR : String :=
  _join_str ["Http Response from CasJobs API",
    "returned status code " ++ DCONST.HTTP_CODE_ID ++ ":\n"] " "

end EXCEPT

namespace TASKNAMES

def GETTABLES : String := "getTables"

def GETSCHEMANAME : String := "getSchemaName"

def EXECUTEQUERY : String := "executeQuery"

def SUBMITJOB : String := "submitJob"

def GETJOBSTATUS : String := "getJobStatus"

def CANCELJOB : String := "cancelJob"

def WRITEFITSFILEFROMQUERY : String := "writeFitsFileFromQuery"

def GETPANDASDATAFRAMEFROMQUERY : String := "getPandasDataFrameFromQuery"

def GETNUMPYARRAYFROMQUERY : String := "getNumpyArrayFromQuery"

def UPLOADPANDASDATAFRAMETOTABLE : String := "uploadPandasDataFrameToTable"

def UPLOADCSVDATATOTABLE : String := "uploadCSVDataToTable"

end TASKNAMES

namespace CASJOBSCONST

def SCISCRIPT_PYTHON : String := "SciScript-Python.CasJobs."

def SCISCRIPT_PYTHON_COMPUTE : String := "Compute." ++ SCISCRIPT_PYTHON

def X_AUTH_TOKEN : String := "X-Auth-Token"

def CONTENT_TYPE : String := "Content-Type"

def ACCEPT : String := "Accept"

def CONTENT_JSON : String := "application/json"

def MYDB : String := "MyDB"

def QUERY : String := "Query"

def TASKNAME : String := "TaskName"

end CASJOBSCONST

namespace URLCONST

def CONTEXTS : String := "contexts"

def TABLES : String := "Tables"

def TASKNAME : String := CASJOBSCONST.TASKNAME

def USERS : String := "users"

def QUERY : String := "query"

def JOBS : String := "jobs"

end URLCONST

/-- From `utils.py`: `__token()`.  `Authentication.getToken()` is the
external token provider; its result is passed in as `tokenOpt`
(`none` models Python `None`).  Raises the login error when the token
is `None` or the empty string, otherwise returns it. -/
def __token (tokenOpt : Option String) : Except String String :=
  match tokenOpt with
  | none => .error EXCEPT.LOGIN_ERROR
  | some token => if token = "" then .error EXCEPT.LOGIN_ERROR else .ok token

/-- From `utils.py`: `__get_taskname(task_id)`.
`Config.isSciServerComputeEnvironment()` is passed in as `isCompute`. -/
def __get_taskname (isCompute : Bool) (task_id : String) : String :=
  if isCompute then CASJOBSCONST.SCISCRIPT_PYTHON_COMPUTE ++ task_id
  else CASJOBSCONST.SCISCRIPT_PYTHON ++ task_id

/-- From `utils.py`: `__taskname_url(taskname)` — note that it applies
`__get_taskname` to its argument. -/
def __taskname_url (isCompute : Bool) (taskname : String) : String :=
  "?" ++ URLCONST.TASKNAME ++ "=" ++ __get_taskname isCompute taskname

/-- From `utils.py`: `__format_to_accept_header(accept_format)`. -/
def __format_to_accept_header (accept_format : String) : Except String String :=
  if accept_format = "pandas" ∨ accept_format = "json" ∨ accept_format = "dict" then
    .ok "application/json+array"
  else if accept_format = "csv" ∨ accept_format = "readable" ∨ accept_format = "StringIO" then
    .ok "text/plain"
  else if accept_format = "fits" ∨ accept_format = "BytesIO" then
    .ok "application/fits"
  else
    .error (EXCEPT.ILLEGAL_FORMAT_ERROR ++ accept_format)

/-- From `utils.py`: `__get_headers(token, accept_format=None)`;
headers are an association list in insertion order. -/
def __get_headers (token : String) (accept_format : Option String) :
    Except String (List (String × String)) :=
  match accept_format with
  | none => .ok [(CASJOBSCONST.X_AUTH_TOKEN, token),
      (CASJOBSCONST.CONTENT_TYPE, CASJOBSCONST.CONTENT_JSON)]
  | some f => do
    let accept ← __format_to_accept_header f
    .ok [(CASJOBSCONST.X_AUTH_TOKEN, token),
      (CASJOBSCONST.CONTENT_TYPE, CASJOBSCONST.CONTENT_JSON),
      (CASJOBSCONST.ACCEPT, accept)]

/-- An HTTP response as seen by the synchronous `requests` calls:
only the fields the source reads (`status_code`, decoded `content`). -/
structure Response where
  status_code : Nat
  content : String
deriving DecidableEq

/-- From `utils.py`: `__validate_response_status(response, on_error)`.
Raising `ValueError(msg)` is modelled as `.error msg`. -/
def __validate_response_status (response : Response) (on_error : String) :
    Except String Unit :=
  if response.status_code ≠ 200 then
    .error (_join_str [on_error,
      pyreplace EXCEPT.HTTP_ERROR DCONST.HTTP_CODE_ID (toString response.status_code),
      response.content] " ")
  else
    .ok ()

/-- From `utils.py`: `__async_validate_response_status(response)`; the
aiohttp response exposes `status` and `text()`. -/
def __async_validate_response_status (status : Nat) (text : String) :
    Except String Unit :=
  if status ≠ 200 then
    .error (_join_str [EXCEPT.EXECUTE_QUERY_ERROR,
      pyreplace EXCEPT.HTTP_ERROR DCONST.HTTP_CODE_ID (toString status),
      text] " ")
  else
    .ok ()

/-- Request body.  `orjson.dumps({"Query": sql, "TaskName": task_name})`
(from `utils.__format_data`) is kept structured as `jsonQuery` since the
JSON serializer is an external collaborator; CSV uploads send the raw
payload; GET/DELETE requests send none. -/
inductive Body where
  | jsonQuery (query taskName : String)
  | raw (data : String)
  | empty
deriving DecidableEq

/-- From `utils.py`: `__format_data(sql, task_name)`. -/
def __format_data (sql task_name : String) : Body :=
  .jsonQuery sql task_name

/-- The HTTP request a public operation would hand to the transport. -/
structure Request where
  method : String
  url : String
  headers : List (String × String)
  body : Body
deriving DecidableEq

/-- The module-level configuration the source reads:
`Authentication.getToken()`, `Config.isSciServerComputeEnvironment()`
and `Config.CasJobsRESTUri`. -/
structure CasJobsEnv where
  tokenOpt : Option String
  isCompute : Bool
  casJobsRESTUri : String
deriving DecidableEq

/-- From `utils.py` `URL_DICT[TASKNAMES.GETTABLES]`. -/
def URL_DICT_GETTABLES (env : CasJobsEnv) : String :=
  _join_str [env.casJobsRESTUri ++ "/" ++ URLCONST.CONTEXTS ++ "/" ++ DCONST.CONTEXT_ID,
    "/" ++ URLCONST.TABLES ++ __taskname_url env.isCompute TASKNAMES.GETTABLES] ""

/-- From `utils.py` `URL_DICT[TASKNAMES.EXECUTEQUERY]` — the task-name
part is left as the `<taskname>` placeholder, substituted per call. -/
def URL_DICT_EXECUTEQUERY (env : CasJobsEnv) : String :=
  _join_str [env.casJobsRESTUri ++ "/" ++ URLCONST.CONTEXTS ++ "/" ++ DCONST.CONTEXT_ID,
    "/" ++ URLCONST.QUERY ++ DCONST.TASKNAME_ID] ""

/-- From `utils.py` `URL_DICT[TASKNAMES.SUBMITJOB]`. -/
def URL_DICT_SUBMITJOB (env : CasJobsEnv) : String :=
  _join_str [env.casJobsRESTUri ++ "/" ++ URLCONST.CONTEXTS ++ "/" ++ DCONST.CONTEXT_ID,
    "/" ++ URLCONST.JOBS ++ __taskname_url env.isCompute TASKNAMES.SUBMITJOB] ""

/-- From `utils.py` `URL_DICT[TASKNAMES.GETJOBSTATUS]`. -/
def URL_DICT_GETJOBSTATUS (env : CasJobsEnv) : String :=
  _join_str [env.casJobsRESTUri ++ "/" ++ URLCONST.JOBS,
    "/" ++ DCONST.JOB_ID ++ __taskname_url env.isCompute TASKNAMES.GETJOBSTATUS] ""

/-- From `utils.py` `URL_DICT[TASKNAMES.CANCELJOB]`. -/
def URL_DICT_CANCELJOB (env : CasJobsEnv) : String :=
  _join_str [env.casJobsRESTUri ++ "/" ++ URLCONST.JOBS,
    "/" ++ DCONST.JOB_ID ++ __taskname_url env.isCompute TASKNAMES.CANCELJOB] ""

/-- From `utils.py` `URL_DICT[TASKNAMES.UPLOADCSVDATATOTABLE]`
(built but, notably, not the template `uploadCSVDataToTable` uses). -/
def URL_DICT_UPLOADCSVDATATOTABLE (env : CasJobsEnv) : String :=
  _join_str [env.casJobsRESTUri ++ "/" ++ URLCONST.CONTEXTS ++ "/" ++ DCONST.CONTEXT_ID,
    "/" ++ URLCONST.TABLES ++ "/" ++ DCONST.TABLENAME_ID ++ DCONST.TASKNAME_ID] ""

/-- From `CasJobs.py` lines 129–133 and 467–471: the duplicated
`task.name` consumption block.  `taskState` is the current value of
the module-level `task.name`; the result is the task name this call
uses together with the value `task.name` holds afterwards. -/
def consume_task_name (taskState : Option String) (defaultName : String) :
    String × Option String :=
  match taskState with
  | some n => (n, none)
  | none => (defaultName, none)

/-- From `CasJobs.py` `getTables` (lines 69–89) restricted to the HTTP
request it issues through `utils.__response_get`: URL substitution,
token check, then headers.  Argument evaluation follows the source
(URL first, then `__token()`). -/
def getTables_request (env : CasJobsEnv) (context : String) :
    Except String Request := do
  let url := pyreplace (URL_DICT_GETTABLES env) DCONST.CONTEXT_ID context
  let token ← __token env.tokenOpt
  let headers ← __get_headers token none
  .ok { method := "GET", url := url, headers := headers, body := .empty }

/-- From `CasJobs.py` `getJobStatus` (lines 215–237) restricted to the
request it issues (`jobId = str(jobId)` first). -/
def getJobStatus_request (env : CasJobsEnv) (jobId : Nat) :
    Except String Request := do
  let url := pyreplace (URL_DICT_GETJOBSTATUS env) DCONST.JOB_ID (toString jobId)
  let token ← __token env.tokenOpt
  let headers ← __get_headers token none
  .ok { method := "GET", url := url, headers := headers, body := .empty }

/-- From `CasJobs.py` `cancelJob` (lines 240–262) restricted to the
DELETE request it issues. -/
def cancelJob_request (env : CasJobsEnv) (jobId : Nat) :
    Except String Request := do
  let url := pyreplace (URL_DICT_CANCELJOB env) DCONST.JOB_ID (toString jobId)
  let token ← __token env.tokenOpt
  let headers ← __get_headers token none
  .ok { method := "DELETE", url := url, headers := headers, body := .empty }

/-- From `CasJobs.py` `submitJob` (lines 190–212) restricted to the PUT
request it issues; the `requests.put` arguments are evaluated in source
order (URL, then `data=__format_data(...)`, then
`headers=__get_headers(__token(), "readable")`). -/
def submitJob_request (env : CasJobsEnv) (sql context : String) :
    Except String Request := do
  let url := pyreplace (URL_DICT_SUBMITJOB env) DCONST.CONTEXT_ID context
  let body := __format_data sql (__get_taskname env.isCompute TASKNAMES.SUBMITJOB)
  let token ← __token env.tokenOpt
  let headers ← __get_headers token (some "readable")
  .ok { method := "PUT", url := url, headers := headers, body := body }

/-- From `CasJobs.py` `executeQuery` (lines 92–144) restricted to the
POST request it issues: consume `task.name`, build the URL by
substituting the context and `__taskname_url(taskName)` (which prefixes
the already-prefixed name a second time), serialize the body, then
check the token and build headers with the requested accept format.
Returns the request together with the new `task.name` state. -/
def executeQuery_request (env : CasJobsEnv) (taskState : Option String)
    (sql context format : String) : Except String (Request × Option String) :=
  let (taskName, newState) :=
    consume_task_name taskState (__get_taskname env.isCompute TASKNAMES.EXECUTEQUERY)
  let url := pyreplace
    (pyreplace (URL_DICT_EXECUTEQUERY env) DCONST.CONTEXT_ID context)
    DCONST.TASKNAME_ID (__taskname_url env.isCompute taskName)
  let body := __format_data sql taskName
  do
    let token ← __token env.tokenOpt
    let headers ← __get_headers token (some format)
    .ok ({ method := "POST", url := url, headers := headers, body := body }, newState)

/-- From `CasJobs.py` `uploadCSVDataToTable` (lines 450–489) restricted
to the POST request it issues: consume `task.name`, build the URL from
`URL_DICT[TASKNAMES.EXECUTEQUERY]` (as the source does) substituting
context, table name and `__taskname_url(taskName)`, and send the raw
CSV payload with only the auth-token header. -/
def uploadCSVDataToTable_request (env : CasJobsEnv) (taskState : Option String)
    (csvData tableName context : String) :
    Except String (Request × Option String) :=
  let (taskName, newState) :=
    consume_task_name taskState (__get_taskname env.isCompute TASKNAMES.UPLOADCSVDATATOTABLE)
  let url := pyreplace
    (pyreplace
      (pyreplace (URL_DICT_EXECUTEQUERY env) DCONST.CONTEXT_ID context)
      DCONST.TABLENAME_ID tableName)
    DCONST.TASKNAME_ID (__taskname_url env.isCompute taskName)
  do
    let token ← __token env.tokenOpt
    .ok ({ method := "POST", url := url,
           headers := [(CASJOBSCONST.X_AUTH_TOKEN, token)],
           body := .raw csvData }, newState)

/-- A job status record as returned by `getJobStatus`: the source reads
`int(jobDesc["Status"])`; the remaining metadata is opaque. -/
structure JobDesc where
  Status : Int
  meta : String
deriving DecidableEq

/-- An observable event of the `waitForJob` loop: a status poll
(`getJobStatus` call) or a `time.sleep` of the given duration. -/
inductive PollEvent where
  | poll (jobDesc : JobDesc)
  | sleep (seconds : Int)
deriving DecidableEq

/-- The test `jobStatus in (3, 4, 5)` from `CasJobs.py` line 302. -/
def isTerminalStatus (s : Int) : Bool :=
  s == 3 || s == 4 || s == 5

/-- From `CasJobs.py` `waitForJob` (lines 265–312), the
`while not complete` loop.  `getStatus i` is the status record the
`i`-th call to `getJobStatus(jobId)` returns (the remote service is an
external collaborator).  The loop itself has no bound, so it is run on
`fuel` iterations; `none` means the fuel ran out before a terminal
status was polled.  On success it returns the final status record and
the ordered trace of polls and sleeps; each sleep is
`time.sleep(max(minPollTime, pollTime))` with `minPollTime = 5`. -/
def waitForJobAux (getStatus : Nat → JobDesc) (pollTime : Int) :
    Nat → Nat → Option (JobDesc × List PollEvent)
  | 0, _ => none
  | fuel + 1, i =>
    let jobDesc := getStatus i
    if isTerminalStatus jobDesc.Status then
      some (jobDesc, [.poll jobDesc])
    else
      match waitForJobAux getStatus pollTime fuel (i + 1) with
      | none => none
      | some (d, evts) =>
        some (d, .poll jobDesc :: .sleep (max 5 pollTime) :: evts)

/-- `waitForJob`, started at the first poll. -/
def waitForJob (getStatus : Nat → JobDesc) (pollTime : Int) (fuel : Nat) :
    Option (JobDesc × List PollEvent) :=
  waitForJobAux getStatus pollTime fuel 0

/-- The trace `waitForJob` produces when polls `i, i+1, …, i+k` happen
and the poll at `i+k` is the terminal one. -/
def traceFrom (getStatus : Nat → JobDesc) (pollTime : Int) (i : Nat) :
    Nat → List PollEvent
  | 0 => [.poll (getStatus i)]
  | k + 1 =>
    .poll (getStatus i) :: .sleep (max 5 pollTime) ::
      traceFrom getStatus pollTime (i + 1) k

/-- The status records polled, in order, in a trace. -/
def pollsOf (trace : List PollEvent) : List JobDesc :=
  trace.filterMap fun e =>
    match e with
    | .poll d => some d
    | .sleep _ => none

/-- One result set of a CasJobs JSON response body: the `Columns` and
`Data` fields the source reads, plus opaque further fields. -/
structure RawResult where
  Columns : List String
  Data : List (List String)
  extra : String
deriving DecidableEq

/-- A decoded CasJobs JSON response body, `{"Result": [...]}`. -/
structure ResultDoc where
  Result : List RawResult
deriving DecidableEq

/-- The `Columns`/`Data` pair `pandas.DataFrame(data, columns=...)` is
built from (the pandas constructor itself is an external container). -/
structure PandasFrame where
  columns : List String
  data : List (List String)
deriving DecidableEq

/-- The possible results of `utils.__parse_post`. -/
inductive ParsedPost where
  | readableBuf (s : String)
  | frame (df : PandasFrame)
  | frames (dfs : List PandasFrame)
  | text (s : String)
  | dict (d : ResultDoc)
  | bytesBuf (s : String)
deriving DecidableEq

/-- The exceptions `utils.__parse_post` can raise: the illegal-format
`ValueError`, a JSON decode error from `orjson.loads`, or an
`IndexError` from `r["Result"][0]` on an empty result list. -/
inductive PostError where
  | illegalFormat (msg : String)
  | jsonError
  | indexError
deriving DecidableEq

/-- The response body as `utils.__parse_post` sees it: the decoded text
`response.content.decode()` and, when that text parses as JSON, the
parsed document (`orjson.loads` is an external collaborator). -/
structure PostResponse where
  content : String
  json : Option ResultDoc
deriving DecidableEq

/-- From `utils.py`: `__parse_post(response, format)`, with the format
tags tested in source order. -/
def __parse_post (response : PostResponse) (format : String) :
    Except PostError ParsedPost :=
  if format = "readable" ∨ format = "StringIO" then
    .ok (.readableBuf response.content)
  else if format = "pandas" then
    match response.json with
    | none => .error .jsonError
    | some r =>
      if r.Result.length > 1 then
        .ok (.frames (r.Result.map fun result => ⟨result.Columns, result.Data⟩))
      else
        match r.Result.get? 0 with
        | none => .error .indexError
        | some r0 => .ok (.frame ⟨r0.Columns, r0.Data⟩)
  else if format = "csv" ∨ format = "json" then
    .ok (.text response.content)
  else if format = "dict" then
    match response.json with
    | none => .error .jsonError
    | some r => .ok (.dict r)
  else if format = "fits" ∨ format = "BytesIO" then
    .ok (.bytesBuf response.content)
  else
    .error (.illegalFormat (EXCEPT.ILLEGAL_FORMAT_ERROR ++ format))

/-- The recognized format tags. -/
def recognizedFormats : List String :=
  ["pandas", "json", "dict", "csv", "readable", "StringIO", "fits", "BytesIO"]

/-- A pandas dataframe as `uploadPandasDataFrameToTable` consumes it:
the index (its name, `none` for Python `None`, and its values) and the
data columns with their rows of cell texts. -/
structure PDataFrame where
  indexName : Option String
  indexValues : List String
  columns : List String
  rows : List (List String)
deriving DecidableEq

/-- The header fields of `dataFrame.to_csv()` output: with the index,
pandas writes the index name (empty when unnamed) before the column
names; without it, just the column names. -/
def csvHeader (df : PDataFrame) (index : Bool) : List String :=
  if index then (df.indexName.getD "") :: df.columns else df.columns

/-- `dataFrame.to_csv()` (pandas is an external container; this follows
its documented output): a header line then one line per row, with the
index value prepended when `index` is true. -/
def to_csv (df : PDataFrame) (index : Bool) : String :=
  let headerLine := String.intercalate "," (csvHeader df index)
  let rowLines :=
    if index then
      (df.indexValues.zip df.rows).map fun p =>
        String.intercalate "," (p.1 :: p.2)
    else
      df.rows.map fun r => String.intercalate "," r
  String.intercalate "\n" (headerLine :: rowLines) ++ "\n"

/-- From `CasJobs.py` `uploadPandasDataFrameToTable` (lines 433–444):
the CSV payload it serializes — `dataFrame.to_csv()` when
`dataFrame.index.name is not None and dataFrame.index.name != ""`,
otherwise `dataFrame.to_csv(index_label=False, index=False)`. -/
def uploadPandasDataFrameToTable_csv (df : PDataFrame) : String :=
  if df.indexName ≠ none ∧ df.indexName ≠ some "" then
    to_csv df true
  else
    to_csv df false

/-- A Python value, for the parts of `executeQueryAsync` that operate
on decoded JSON (`orjson` produces exactly these shapes). -/
inductive PyVal where
  | str (s : String)
  | int (n : Int)
  | list (l : List PyVal)
  | dict (l : List (String × PyVal))

/-- A Python exception, carrying its message. -/
inductive PyExc where
  | valueError (msg : String)
  | typeError (msg : String)
  | keyError (key : String)
  | indexError
deriving DecidableEq

/-- Python subscription `v[key]`: dicts accept string keys, lists
accept integer indices (negative indices count from the end), and a
list subscripted with a string raises
`TypeError: list indices must be integers or slices, not str`. -/
def PyVal.getItem : PyVal → PyVal → Except PyExc PyVal
  | .dict d, .str k =>
    match d.lookup k with
    | some v => .ok v
    | none => .error (.keyError k)
  | .list l, .int n =>
    let i := if n < 0 then n + l.length else n
    if h : 0 ≤ i ∧ i.toNat < l.length then
      .ok (l.get ⟨i.toNat, h.2⟩)
    else
      .error .indexError
  | .list _, .str _ =>
    .error (.typeError "list indices must be integers or slices, not str")
  | _, _ => .error (.typeError "unsubscriptable operand")

/-- One aiohttp response in the batch path: the fields the source
reads — `status`, `text()` and the decoded JSON body. -/
structure AsyncResponse where
  status : Nat
  text : String
  json : PyVal

/-- From `utils.py`: `__make_post_request` — validate the status, then
build the list of `{"Columns": ..., "Data": ...}` records, one per
entry of `response_json["Result"]`.  Note the returned value is that
bare list, not a `{"Result": ...}` document. -/
def __make_post_request (resp : AsyncResponse) : Except PyExc PyVal := do
  match __async_validate_response_status resp.status resp.text with
  | .error msg => .error (.valueError msg)
  | .ok _ => pure ()
  let result ← resp.json.getItem (.str "Result")
  match result with
  | .list items => do
    let output ← items.mapM fun response => do
      let cols ← response.getItem (.str "Columns")
      let data ← response.getItem (.str "Data")
      pure (PyVal.dict [("Columns", cols), ("Data", data)])
    pure (.list output)
  | _ => .error (.typeError "object is not iterable")

/-- From `utils.py`: `__async_post_request` — one task per query,
gathered in submission order (`asyncio.gather` preserves the order of
its arguments, which `mapM` mirrors).  `server` maps each submitted
query string to the response its POST receives. -/
def __async_post_request (server : String → AsyncResponse) (datas : List String) :
    Except PyExc (List PyVal) :=
  datas.mapM fun data => __make_post_request (server data)

/-- The `sql` argument of `executeQueryAsync`: a single string or a
list of strings. -/
inductive SqlInput where
  | one (s : String)
  | many (l : List String)

/-- The result of `executeQueryAsync`: the raw per-query responses, or
(for a non-`None` format) a `pandas.DataFrame(r, columns=...)` value. -/
inductive AsyncOutput where
  | responses (l : List PyVal)
  | frameOf (rows : List PyVal) (columns : PyVal)

/-- From `CasJobs.py` `executeQueryAsync` (lines 147–187): normalize
`sql` to a list, check the token (inside
`__get_headers(__token(), accept_format="json")`, before any network
call), run the batch, and — when a format is requested — execute the
combining loop `r += response["Result"][0]["Data"]` followed by
`pandas.DataFrame(r, columns=responses[0]["Result"][0]["Columns"])`,
subscripting exactly as the source does. -/
def executeQueryAsync (tokenOpt : Option String) (server : String → AsyncResponse)
    (sql : SqlInput) (format : Option String) : Except PyExc AsyncOutput := do
  let sqls := match sql with | .one s => [s] | .many l => l
  match __token tokenOpt with
  | .error msg => .error (.valueError msg)
  | .ok _ => pure ()
  let responses ← __async_post_request server sqls
  match format with
  | none => pure (.responses responses)
  | some _ => do
    let r ← responses.foldlM
      (fun acc response => do
        let resultVal ← response.getItem (.str "Result")
        let firstVal ← resultVal.getItem (.int 0)
        let dataVal ← firstVal.getItem (.str "Data")
        match dataVal with
        | .list dl => pure (acc ++ dl)
        | _ => .error (.typeError "can only concatenate list"))
      ([] : List PyVal)
    let firstResponse ←
      match responses.get? 0 with
      | some v => pure v
      | none => .error .indexError
    let resultVal ← firstResponse.getItem (.str "Result")
    let firstVal ← resultVal.getItem (.int 0)
    let colsVal ← firstVal.getItem (.str "Columns")
    pure (.frameOf r colsVal)

/-! Theorems. -/

/-- `part` occurs contiguously inside `msg`. -/
def strContains (msg part : String) : Prop :=
  ∃ pre suf : List Char, msg.data = pre ++ part.data ++ suf

/-- Substituting a status-code string into the HTTP error template. -/
theorem http_error_replace (s : String) :
    pyreplace EXCEPT.HTTP_ERROR DCONST.HTTP_CODE_ID s =
      "Http Response from CasJobs API returned status code " ++ s ++ ":\n" := rfl

/-- C3: for every format tag outside the recognized set, both the
accept-header selection and the response-body decoding fail with the
illegal-format error with the exact offending value appended, and for
every tag inside the set neither raises that error. -/
theorem format_dispatch_total (format : String) :
    (format ∉ recognizedFormats →
      __format_to_accept_header format =
        .error (EXCEPT.ILLEGAL_FORMAT_ERROR ++ format) ∧
      ∀ response : PostResponse,
        __parse_post response format =
          .error (.illegalFormat (EXCEPT.ILLEGAL_FORMAT_ERROR ++ format))) ∧
    (format ∈ recognizedFormats →
      (∃ accept, __format_to_accept_header format = .ok accept) ∧
      ∀ (response : PostResponse) (m : String),
        __parse_post response format ≠ .error (.illegalFormat m)) := by
  constructor
  · intro h
    simp only [recognizedFormats, List.mem_cons, List.not_mem_nil, or_false] at h
    push_neg at h
    obtain ⟨h1, h2, h3, h4, h5, h6, h7, h8⟩ := h
    exact ⟨by simp [__format_to_accept_header, h1, h2, h3, h4, h5, h6, h7, h8],
      fun response => by simp [__parse_post, h1, h2, h3, h4, h5, h6, h7, h8]⟩
  · intro h
    simp only [recognizedFormats, List.mem_cons, List.not_mem_nil, or_false] at h
    have hok : ∃ accept, __format_to_accept_header format = .ok accept := by
      rcases h with h | h | h | h | h | h | h | h <;> subst h <;> exact ⟨_, rfl⟩
    refine ⟨hok, fun response m => ?_⟩
    obtain ⟨content, json⟩ := response
    rcases json with _ | r
    · rcases h with h | h | h | h | h | h | h | h <;> subst h <;> simp [__parse_post]
    · rcases h with h | h | h | h | h | h | h | h <;> subst h <;>
        by_cases hlen : 1 < r.Result.length <;>
        rcases hr : r.Result[0]? with _ | r0 <;>
        simp [__parse_post, hlen, hr]

/-- C3 witness: the dispatch at the unrecognized tag `"xml"` and at the
recognized tag `"pandas"`. -/
theorem format_dispatch_total_witness :
    __format_to_accept_header "xml" =
      .error (EXCEPT.ILLEGAL_FORMAT_ERROR ++ "xml") ∧
    __parse_post ⟨"body", none⟩ "xml" =
      .error (.illegalFormat (EXCEPT.ILLEGAL_FORMAT_ERROR ++ "xml")) ∧
    (∃ accept, __format_to_accept_header "pandas" = .ok accept) ∧
    __parse_post ⟨"body", none⟩ "pandas" ≠
      .error (.illegalFormat (EXCEPT.ILLEGAL_FORMAT_ERROR ++ "pandas")) :=
  ⟨((format_dispatch_total "xml").1 (by decide)).1,
    ((format_dispatch_total "xml").1 (by decide)).2 _,
    ((format_dispatch_total "pandas").2 (by decide)).1,
    ((format_dispatch_total "pandas").2 (by decide)).2 _ _⟩

/-- C4: for every response with a status code other than 200, response
validation — the synchronous validator with its caller-supplied
operation message, and the asynchronous one with the fixed
execute-query message — fails with a message containing the operation
message, the numeric status code and the raw body text; on a 200
response both succeed. -/
theorem validate_response_status_spec (response : Response) (on_error : String)
    (status : Nat) (text : String) :
    (response.status_code ≠ 200 →
      ∃ msg, __validate_response_status response on_error = .error msg ∧
        strContains msg on_error ∧
        strContains msg (toString response.status_code) ∧
        strContains msg response.content) ∧
    (response.status_code = 200 →
      __validate_response_status response on_error = .ok ()) ∧
    (status ≠ 200 →
      ∃ msg, __async_validate_response_status status text = .error msg ∧
        strContains msg EXCEPT.EXECUTE_QUERY_ERROR ∧
        strContains msg (toString status) ∧
        strContains msg text) ∧
    (status = 200 → __async_validate_response_status status text = .ok ()) := by
  refine ⟨fun h => ?_, fun h => ?_, fun h => ?_, fun h => ?_⟩
  · refine ⟨_join_str [on_error, pyreplace EXCEPT.HTTP_ERROR DCONST.HTTP_CODE_ID
        (toString response.status_code), response.content] " ",
      by simp [__validate_response_status, h], ?_, ?_, ?_⟩
    · exact ⟨[], (" " ++ pyreplace EXCEPT.HTTP_ERROR DCONST.HTTP_CODE_ID
          (toString response.status_code) ++ " " ++ response.content).data,
        by simp [_join_str, String.data_append, List.append_assoc]⟩
    · exact ⟨(on_error ++ " " ++
          "Http Response from CasJobs API returned status code ").data,
        (":\n" ++ " " ++ response.content).data,
        by simp [_join_str, http_error_replace, String.data_append, List.append_assoc]⟩
    · exact ⟨(on_error ++ " " ++ pyreplace EXCEPT.HTTP_ERROR DCONST.HTTP_CODE_ID
          (toString response.status_code) ++ " ").data, [],
        by simp [_join_str, String.data_append, List.append_assoc]⟩
  · simp [__validate_response_status, h]
  · refine ⟨_join_str [EXCEPT.EXECUTE_QUERY_ERROR, pyreplace EXCEPT.HTTP_ERROR
        DCONST.HTTP_CODE_ID (toString status), text] " ",
      by simp [__async_validate_response_status, h], ?_, ?_, ?_⟩
    · exact ⟨[], (" " ++ pyreplace EXCEPT.HTTP_ERROR DCONST.HTTP_CODE_ID
          (toString status) ++ " " ++ text).data,
        by simp [_join_str, String.data_append, List.append_assoc]⟩
    · exact ⟨(EXCEPT.EXECUTE_QUERY_ERROR ++ " " ++
          "Http Response from CasJobs API returned status code ").data,
        (":\n" ++ " " ++ text).data,
        by simp [_join_str, http_error_replace, String.data_append, List.append_assoc]⟩
    · exact ⟨(EXCEPT.EXECUTE_QUERY_ERROR ++ " " ++
          pyreplace EXCEPT.HTTP_ERROR DCONST.HTTP_CODE_ID (toString status) ++ " ").data,
        [], by simp [_join_str, String.data_append, List.append_assoc]⟩
  · simp [__async_validate_response_status, h]

/-- C4 witness: a 404 response with body `"boom"` and a 200 response. -/
theorem validate_response_status_spec_witness :
    (∃ msg, __validate_response_status ⟨404, "boom"⟩ EXCEPT.SCHEMA_ERROR = .error msg ∧
      strContains msg EXCEPT.SCHEMA_ERROR ∧
      strContains msg (toString 404) ∧
      strContains msg "boom") ∧
    __validate_response_status ⟨200, "fine"⟩ EXCEPT.SCHEMA_ERROR = .ok () ∧
    (∃ msg, __async_validate_response_status 500 "bad" = .error msg ∧
      strContains msg EXCEPT.EXECUTE_QUERY_ERROR ∧
      strContains msg (toString 500) ∧
      strContains msg "bad") ∧
    __async_validate_response_status 200 "fine" = .ok () :=
  ⟨(validate_response_status_spec ⟨404, "boom"⟩ EXCEPT.SCHEMA_ERROR 500 "bad").1
      (by decide),
    (validate_response_status_spec ⟨200, "fine"⟩ EXCEPT.SCHEMA_ERROR 500 "bad").2.1 rfl,
    (validate_response_status_spec ⟨404, "boom"⟩ EXCEPT.SCHEMA_ERROR 500 "bad").2.2.1
      (by decide),
    (validate_response_status_spec ⟨404, "boom"⟩ EXCEPT.SCHEMA_ERROR 200 "fine").2.2.2 rfl⟩

/-- A recognized format always has an accept header. -/
theorem format_to_accept_ok (format : String) (h : format ∈ recognizedFormats) :
    ∃ accept, __format_to_accept_header format = .ok accept := by
  simp only [recognizedFormats, List.mem_cons, List.not_mem_nil, or_false] at h
  rcases h with h | h | h | h | h | h | h | h <;> subst h <;> exact ⟨_, rfl⟩

/-- C5: for every modeled public operation, a `None` or empty token
from the provider makes the operation fail with the login error while
no request is built, and a non-empty token never raises the login
error — the request is built with the token attached as its auth-token
header (for `executeQuery`, provided the requested format is a
recognized one, since the accept-header lookup runs after the token
check). -/
theorem token_required_before_request (env : CasJobsEnv)
    (context sql format csvData tableName : String) (jobId : Nat)
    (taskState : Option String) :
    (env.tokenOpt = none ∨ env.tokenOpt = some "" →
      getTables_request env context = .error EXCEPT.LOGIN_ERROR ∧
      getJobStatus_request env jobId = .error EXCEPT.LOGIN_ERROR ∧
      cancelJob_request env jobId = .error EXCEPT.LOGIN_ERROR ∧
      submitJob_request env sql context = .error EXCEPT.LOGIN_ERROR ∧
      executeQuery_request env taskState sql context format =
        .error EXCEPT.LOGIN_ERROR ∧
      uploadCSVDataToTable_request env taskState csvData tableName context =
        .error EXCEPT.LOGIN_ERROR ∧
      (∀ server sqlIn fmt, executeQueryAsync env.tokenOpt server sqlIn fmt =
        .error (.valueError EXCEPT.LOGIN_ERROR))) ∧
    (∀ token, env.tokenOpt = some token → token ≠ "" →
      (∃ req, getTables_request env context = .ok req ∧
        (CASJOBSCONST.X_AUTH_TOKEN, token) ∈ req.headers) ∧
      (∃ req, getJobStatus_request env jobId = .ok req ∧
        (CASJOBSCONST.X_AUTH_TOKEN, token) ∈ req.headers) ∧
      (∃ req, cancelJob_request env jobId = .ok req ∧
        (CASJOBSCONST.X_AUTH_TOKEN, token) ∈ req.headers) ∧
      (∃ req, submitJob_request env sql context = .ok req ∧
        (CASJOBSCONST.X_AUTH_TOKEN, token) ∈ req.headers) ∧
      (format ∈ recognizedFormats →
        ∃ req newState,
          executeQuery_request env taskState sql context format = .ok (req, newState) ∧
          (CASJOBSCONST.X_AUTH_TOKEN, token) ∈ req.headers) ∧
      (∃ req newState,
        uploadCSVDataToTable_request env taskState csvData tableName context =
          .ok (req, newState) ∧
        (CASJOBSCONST.X_AUTH_TOKEN, token) ∈ req.headers)) := by
  constructor
  · intro h
    have htok : __token env.tokenOpt = .error EXCEPT.LOGIN_ERROR := by
      rcases h with h | h <;> simp [__token, h]
    refine ⟨?_, ?_, ?_, ?_, ?_, ?_, fun server sqlIn fmt => ?_⟩ <;>
      simp [getTables_request, getJobStatus_request, cancelJob_request,
        submitJob_request, executeQuery_request, uploadCSVDataToTable_request,
        executeQueryAsync, htok, Bind.bind, Except.bind]
  · intro token htok hne
    have ht : __token env.tokenOpt = .ok token := by simp [__token, htok, hne]
    refine ⟨?_, ?_, ?_, ?_, fun hfmt => ?_, ?_⟩
    · have hg : getTables_request env context = .ok
          { method := "GET",
            url := pyreplace (URL_DICT_GETTABLES env) DCONST.CONTEXT_ID context,
            headers := [(CASJOBSCONST.X_AUTH_TOKEN, token),
              (CASJOBSCONST.CONTENT_TYPE, CASJOBSCONST.CONTENT_JSON)],
            body := .empty } := by
        simp [getTables_request, ht, __get_headers, Bind.bind, Except.bind]
      exact ⟨_, hg, by simp⟩
    · have hg : getJobStatus_request env jobId = .ok
          { method := "GET",
            url := pyreplace (URL_DICT_GETJOBSTATUS env) DCONST.JOB_ID (toString jobId),
            headers := [(CASJOBSCONST.X_AUTH_TOKEN, token),
              (CASJOBSCONST.CONTENT_TYPE, CASJOBSCONST.CONTENT_JSON)],
            body := .empty } := by
        simp [getJobStatus_request, ht, __get_headers, Bind.bind, Except.bind]
      exact ⟨_, hg, by simp⟩
    · have hg : cancelJob_request env jobId = .ok
          { method := "DELETE",
            url := pyreplace (URL_DICT_CANCELJOB env) DCONST.JOB_ID (toString jobId),
            headers := [(CASJOBSCONST.X_AUTH_TOKEN, token),
              (CASJOBSCONST.CONTENT_TYPE, CASJOBSCONST.CONTENT_JSON)],
            body := .empty } := by
        simp [cancelJob_request, ht, __get_headers, Bind.bind, Except.bind]
      exact ⟨_, hg, by simp⟩
    · have hg : submitJob_request env sql context = .ok
          { method := "PUT",
            url := pyreplace (URL_DICT_SUBMITJOB env) DCONST.CONTEXT_ID context,
            headers := [(CASJOBSCONST.X_AUTH_TOKEN, token),
              (CASJOBSCONST.CONTENT_TYPE, CASJOBSCONST.CONTENT_JSON),
              (CASJOBSCONST.ACCEPT, "text/plain")],
            body := __format_data sql (__get_taskname env.isCompute TASKNAMES.SUBMITJOB) } := by
        simp [submitJob_request, ht, __get_headers, __format_to_accept_header,
          Bind.bind, Except.bind]
      exact ⟨_, hg, by simp⟩
    · obtain ⟨accept, ha⟩ := format_to_accept_ok format hfmt
      have hg : executeQuery_request env taskState sql context format = .ok
          ({ method := "POST",
             url := pyreplace
               (pyreplace (URL_DICT_EXECUTEQUERY env) DCONST.CONTEXT_ID context)
               DCONST.TASKNAME_ID (__taskname_url env.isCompute
                 (consume_task_name taskState
                   (__get_taskname env.isCompute TASKNAMES.EXECUTEQUERY)).1),
             headers := [(CASJOBSCONST.X_AUTH_TOKEN, token),
               (CASJOBSCONST.CONTENT_TYPE, CASJOBSCONST.CONTENT_JSON),
               (CASJOBSCONST.ACCEPT, accept)],
             body := __format_data sql
               (consume_task_name taskState
                 (__get_taskname env.isCompute TASKNAMES.EXECUTEQUERY)).1 },
           (consume_task_name taskState
             (__get_taskname env.isCompute TASKNAMES.EXECUTEQUERY)).2) := by
        simp [executeQuery_request, ht, __get_headers, ha, Bind.bind, Except.bind]
      exact ⟨_, _, hg, by simp⟩
    · have hg : uploadCSVDataToTable_request env taskState csvData tableName context = .ok
          ({ method := "POST",
             url := pyreplace
               (pyreplace
                 (pyreplace (URL_DICT_EXECUTEQUERY env) DCONST.CONTEXT_ID context)
                 DCONST.TABLENAME_ID tableName)
               DCONST.TASKNAME_ID (__taskname_url env.isCompute
                 (consume_task_name taskState
                   (__get_taskname env.isCompute TASKNAMES.UPLOADCSVDATATOTABLE)).1),
             headers := [(CASJOBSCONST.X_AUTH_TOKEN, token)],
             body := .raw csvData },
           (consume_task_name taskState
             (__get_taskname env.isCompute TASKNAMES.UPLOADCSVDATATOTABLE)).2) := by
        simp [uploadCSVDataToTable_request, ht, Bind.bind, Except.bind]
      exact ⟨_, _, hg, by simp⟩

/-- C5 witness: a missing token fails `getTables` locally; the token
`"tok"` is attached to the built request. -/
theorem token_required_before_request_witness :
    getTables_request ⟨none, false, "https://cas"⟩ "MyDB" =
      .error EXCEPT.LOGIN_ERROR ∧
    (∃ req, getTables_request ⟨some "tok", false, "https://cas"⟩ "MyDB" = .ok req ∧
      (CASJOBSCONST.X_AUTH_TOKEN, "tok") ∈ req.headers) :=
  ⟨((token_required_before_request ⟨none, false, "https://cas"⟩ "MyDB" "" "" "" "" 0
        none).1 (Or.inl rfl)).1,
    ((token_required_before_request ⟨some "tok", false, "https://cas"⟩ "MyDB" "" "" ""
        "" 0 none).2 "tok" rfl (by decide)).1⟩

/-- The polling loop, started anywhere, returns the first terminal
record it polls, with the expected trace. -/
theorem waitForJobAux_spec (getStatus : Nat → JobDesc) (pollTime : Int) :
    ∀ (k fuel i : Nat), k < fuel →
      isTerminalStatus (getStatus (i + k)).Status = true →
      (∀ j, j < k → isTerminalStatus (getStatus (i + j)).Status = false) →
      waitForJobAux getStatus pollTime fuel i =
        some (getStatus (i + k), traceFrom getStatus pollTime i k) := by
  intro k
  induction k with
  | zero =>
    intro fuel i hfuel hterm _
    match fuel, hfuel with
    | fuel + 1, _ =>
      simp only [Nat.add_zero] at hterm
      simp [waitForJobAux, traceFrom, hterm]
  | succ k ih =>
    intro fuel i hfuel hterm hrun
    match fuel, hfuel with
    | fuel + 1, hfuel =>
      have h0 : isTerminalStatus (getStatus i).Status = false := by
        have := hrun 0 (Nat.succ_pos k)
        simpa using this
      have hterm1 : isTerminalStatus (getStatus (i + 1 + k)).Status = true := by
        have : i + 1 + k = i + (k + 1) := by omega
        rw [this]; exact hterm
      have hrun1 : ∀ j, j < k → isTerminalStatus (getStatus (i + 1 + j)).Status = false := by
        intro j hj
        have : i + 1 + j = i + (j + 1) := by omega
        rw [this]; exact hrun (j + 1) (by omega)
      have hrec := ih fuel (i + 1) (by omega) hterm1 hrun1
      have : i + 1 + k = i + (k + 1) := by omega
      rw [this] at hrec
      simp [waitForJobAux, h0, hrec, traceFrom]

/-- The polled records of a trace, in order. -/
theorem pollsOf_traceFrom (getStatus : Nat → JobDesc) (pollTime : Int) :
    ∀ k i, pollsOf (traceFrom getStatus pollTime i k) =
      (List.range (k + 1)).map fun j => getStatus (i + j) := by
  intro k
  induction k with
  | zero => intro i; simp [pollsOf, traceFrom, List.range_succ]
  | succ k ih =>
    intro i
    have hstep : pollsOf (traceFrom getStatus pollTime i (k + 1)) =
        getStatus i :: pollsOf (traceFrom getStatus pollTime (i + 1) k) := by
      simp [pollsOf, traceFrom]
    rw [hstep, ih]
    conv_rhs => rw [List.range_succ_eq_map]
    rw [List.map_cons, List.map_map]
    congr 1
    refine List.map_congr_left fun j _ => ?_
    simp only [Function.comp_apply]
    congr 1
    omega

/-- C1: `waitForJob` returns exactly at the first polled record whose
status is terminal (3, 4 or 5): when polls `0, …, k-1` return status 0,
1 or 2 and poll `k` returns a terminal status, it returns the record of
poll `k`, and the polls performed are exactly polls `0, …, k` — none
after the terminal one, and it does not return at any non-terminal
poll. -/
theorem waitForJob_first_terminal (getStatus : Nat → JobDesc) (pollTime : Int)
    (fuel k : Nat) (hfuel : k < fuel)
    (hterm : (getStatus k).Status = 3 ∨ (getStatus k).Status = 4 ∨
      (getStatus k).Status = 5)
    (hrun : ∀ j, j < k → (getStatus j).Status = 0 ∨ (getStatus j).Status = 1 ∨
      (getStatus j).Status = 2) :
    waitForJob getStatus pollTime fuel =
      some (getStatus k, traceFrom getStatus pollTime 0 k) ∧
    pollsOf (traceFrom getStatus pollTime 0 k) = (List.range (k + 1)).map getStatus := by
  have hterm2 : isTerminalStatus (getStatus (0 + k)).Status = true := by
    simp only [Nat.zero_add]
    rcases hterm with h | h | h <;> simp [isTerminalStatus, h]
  have hrun2 : ∀ j, j < k → isTerminalStatus (getStatus (0 + j)).Status = false := by
    intro j hj
    simp only [Nat.zero_add]
    rcases hrun j hj with h | h | h <;> simp [isTerminalStatus, h]
  have hmain := waitForJobAux_spec getStatus pollTime k fuel 0 hfuel hterm2 hrun2
  simp only [Nat.zero_add] at hmain
  refine ⟨hmain, ?_⟩
  have := pollsOf_traceFrom getStatus pollTime k 0
  simpa using this

/-- C1 witness: two non-terminal polls (Started), then Finished at
poll 2. -/
theorem waitForJob_first_terminal_witness :
    waitForJob (fun i => if i < 2 then ⟨1, "m"⟩ else ⟨5, "m"⟩) 7 10 =
      some (⟨5, "m"⟩,
        traceFrom (fun i => if i < 2 then ⟨1, "m"⟩ else ⟨5, "m"⟩) 7 0 2) ∧
    pollsOf (traceFrom (fun i => if i < 2 then ⟨1, "m"⟩ else ⟨5, "m"⟩) 7 0 2) =
      (List.range 3).map (fun i => if i < 2 then ⟨1, "m"⟩ else ⟨5, "m"⟩) := by
  have h := waitForJob_first_terminal (fun i => if i < 2 then ⟨1, "m"⟩ else ⟨5, "m"⟩)
    7 10 2 (by omega) (by simp) (by decide)
  simpa using h

/-- C2: whenever `waitForJob` returns, every sleep in its trace lasted
`max 5 pollTime` seconds (at least 5, so a `pollTime < 5` is clamped),
and the trace ends with the terminal poll — no sleep after it. -/
theorem waitForJob_sleep_clamped (getStatus : Nat → JobDesc) (pollTime : Int)
    (fuel : Nat) (jobDesc : JobDesc) (trace : List PollEvent)
    (h : waitForJob getStatus pollTime fuel = some (jobDesc, trace)) :
    (∀ t, PollEvent.sleep t ∈ trace → t = max 5 pollTime ∧ 5 ≤ t) ∧
    ∃ pre, trace = pre ++ [PollEvent.poll jobDesc] := by
  suffices haux : ∀ (fuel i : Nat) (jobDesc : JobDesc) (trace : List PollEvent),
      waitForJobAux getStatus pollTime fuel i = some (jobDesc, trace) →
      (∀ t, PollEvent.sleep t ∈ trace → t = max 5 pollTime ∧ 5 ≤ t) ∧
      ∃ pre, trace = pre ++ [PollEvent.poll jobDesc] by
    exact haux fuel 0 jobDesc trace h
  intro fuel
  induction fuel with
  | zero => intro i jobDesc trace h; simp [waitForJobAux] at h
  | succ fuel ih =>
    intro i jobDesc trace h
    by_cases hterm : isTerminalStatus (getStatus i).Status = true
    · simp only [waitForJobAux, hterm, if_true, Option.some.injEq, Prod.mk.injEq] at h
      obtain ⟨hd, ht⟩ := h
      subst hd; subst ht
      exact ⟨fun t hmem => by simp at hmem, ⟨[], by simp⟩⟩
    · simp only [waitForJobAux, hterm, if_false, Bool.false_eq_true] at h
      rcases hrec : waitForJobAux getStatus pollTime fuel (i + 1) with _ | p
      · rw [hrec] at h; simp at h
      · obtain ⟨d, evts⟩ := p
        rw [hrec] at h
        simp only [Option.some.injEq, Prod.mk.injEq] at h
        obtain ⟨rfl, rfl⟩ := h
        obtain ⟨hsleep, pre, hpre⟩ := ih (i + 1) d evts hrec
        constructor
        · intro t hmem
          simp only [List.mem_cons] at hmem
          rcases hmem with hmem | hmem | hmem
          · exact absurd hmem (by simp)
          · have ht5 : t = max 5 pollTime := by simpa using hmem
            exact ⟨ht5, ht5 ▸ le_max_left 5 pollTime⟩
          · exact hsleep t hmem
        · exact ⟨.poll (getStatus i) :: .sleep (max 5 pollTime) :: pre,
            by simp [hpre]⟩

/-- C2 witness: `pollTime = 2` is clamped to 5-second sleeps, and the
trace ends at the terminal poll. -/
theorem waitForJob_sleep_clamped_witness :
    (∀ t, PollEvent.sleep t ∈
        [PollEvent.poll ⟨1, "m"⟩, PollEvent.sleep 5, PollEvent.poll ⟨1, "m"⟩,
          PollEvent.sleep 5, PollEvent.poll ⟨5, "m"⟩] →
      t = max 5 2 ∧ 5 ≤ t) ∧
    ∃ pre, [PollEvent.poll ⟨1, "m"⟩, PollEvent.sleep 5, PollEvent.poll ⟨1, "m"⟩,
        PollEvent.sleep 5, PollEvent.poll (⟨5, "m"⟩ : JobDesc)] =
      pre ++ [PollEvent.poll ⟨5, "m"⟩] :=
  waitForJob_sleep_clamped (fun i => if i < 2 then ⟨1, "m"⟩ else ⟨5, "m"⟩) 2 4
    ⟨5, "m"⟩ _ (by decide)

/-- C7: the task-name override is a one-shot value.  A set override
`some n` is used by the next consuming call — `executeQuery` uses it as
the body task name, `uploadCSVDataToTable` in the URL substitution —
and the state both calls return is `none`; a call made with the reset
state falls back to the per-operation default name. -/
theorem task_name_override_one_shot (env : CasJobsEnv)
    (token n sql context format csvData tableName accept : String)
    (htok : env.tokenOpt = some token) (hne : token ≠ "")
    (hfmt : __format_to_accept_header format = .ok accept) :
    (∃ req1, executeQuery_request env (some n) sql context format = .ok (req1, none) ∧
      req1.body = .jsonQuery sql n) ∧
    (∃ req2, executeQuery_request env none sql context format = .ok (req2, none) ∧
      req2.body = .jsonQuery sql (__get_taskname env.isCompute TASKNAMES.EXECUTEQUERY)) ∧
    (∃ req3, uploadCSVDataToTable_request env (some n) csvData tableName context =
        .ok (req3, none) ∧
      req3.url = pyreplace
        (pyreplace
          (pyreplace (URL_DICT_EXECUTEQUERY env) DCONST.CONTEXT_ID context)
          DCONST.TABLENAME_ID tableName)
        DCONST.TASKNAME_ID (__taskname_url env.isCompute n)) ∧
    (∃ req4, uploadCSVDataToTable_request env none csvData tableName context =
        .ok (req4, none) ∧
      req4.url = pyreplace
        (pyreplace
          (pyreplace (URL_DICT_EXECUTEQUERY env) DCONST.CONTEXT_ID context)
          DCONST.TABLENAME_ID tableName)
        DCONST.TASKNAME_ID (__taskname_url env.isCompute
          (__get_taskname env.isCompute TASKNAMES.UPLOADCSVDATATOTABLE))) := by
  have ht : __token env.tokenOpt = .ok token := by simp [__token, htok, hne]
  have hb : ∀ ts : Option String,
      executeQuery_request env ts sql context format = .ok
        ({ method := "POST",
           url := pyreplace
             (pyreplace (URL_DICT_EXECUTEQUERY env) DCONST.CONTEXT_ID context)
             DCONST.TASKNAME_ID (__taskname_url env.isCompute
               (consume_task_name ts
                 (__get_taskname env.isCompute TASKNAMES.EXECUTEQUERY)).1),
           headers := [(CASJOBSCONST.X_AUTH_TOKEN, token),
             (CASJOBSCONST.CONTENT_TYPE, CASJOBSCONST.CONTENT_JSON),
             (CASJOBSCONST.ACCEPT, accept)],
           body := __format_data sql
             (consume_task_name ts
               (__get_taskname env.isCompute TASKNAMES.EXECUTEQUERY)).1 },
         (consume_task_name ts
           (__get_taskname env.isCompute TASKNAMES.EXECUTEQUERY)).2) := by
    intro ts
    simp [executeQuery_request, ht, hfmt, __get_headers, Bind.bind, Except.bind]
  have hu : ∀ ts : Option String,
      uploadCSVDataToTable_request env ts csvData tableName context = .ok
        ({ method := "POST",
           url := pyreplace
             (pyreplace
               (pyreplace (URL_DICT_EXECUTEQUERY env) DCONST.CONTEXT_ID context)
               DCONST.TABLENAME_ID tableName)
             DCONST.TASKNAME_ID (__taskname_url env.isCompute
               (consume_task_name ts
                 (__get_taskname env.isCompute TASKNAMES.UPLOADCSVDATATOTABLE)).1),
           headers := [(CASJOBSCONST.X_AUTH_TOKEN, token)],
           body := .raw csvData },
         (consume_task_name ts
           (__get_taskname env.isCompute TASKNAMES.UPLOADCSVDATATOTABLE)).2) := by
    intro ts
    simp [uploadCSVDataToTable_request, ht, Bind.bind, Except.bind]
  exact ⟨⟨_, hb (some n), rfl⟩, ⟨_, hb none, rfl⟩,
    ⟨_, hu (some n), rfl⟩, ⟨_, hu none, rfl⟩⟩

/-- C7 witness: override `"myTask"` is consumed by `executeQuery` and
the state comes back `none`; with no override the default name is
used. -/
theorem task_name_override_one_shot_witness :
    (∃ req1, executeQuery_request ⟨some "tok", false, "https://cas"⟩ (some "myTask")
        "select 1" "MyDB" "pandas" = .ok (req1, none) ∧
      req1.body = .jsonQuery "select 1" "myTask") ∧
    (∃ req2, executeQuery_request ⟨some "tok", false, "https://cas"⟩ none
        "select 1" "MyDB" "pandas" = .ok (req2, none) ∧
      req2.body = .jsonQuery "select 1"
        (__get_taskname false TASKNAMES.EXECUTEQUERY)) := by
  have h := task_name_override_one_shot ⟨some "tok", false, "https://cas"⟩
    "tok" "myTask" "select 1" "MyDB" "pandas" "x" "T" "application/json+array"
    rfl (by decide) rfl
  exact ⟨h.1, h.2.1⟩

/-- C8: the CSV payload `uploadPandasDataFrameToTable` uploads contains
the index column exactly when the dataframe's index is named (a
non-`None`, non-empty name): named gives header `indexName, columns…`,
unnamed gives header `columns…` only. -/
theorem upload_dataframe_index_column (df : PDataFrame) :
    (∀ nm, df.indexName = some nm → nm ≠ "" →
      uploadPandasDataFrameToTable_csv df = to_csv df true ∧
      csvHeader df true = nm :: df.columns) ∧
    (df.indexName = none ∨ df.indexName = some "" →
      uploadPandasDataFrameToTable_csv df = to_csv df false ∧
      csvHeader df false = df.columns) := by
  constructor
  · intro nm hnm hne
    constructor
    · simp [uploadPandasDataFrameToTable_csv, hnm, hne]
    · simp [csvHeader, hnm]
  · intro h
    constructor
    · rcases h with h | h <;> simp [uploadPandasDataFrameToTable_csv, h]
    · simp [csvHeader]

/-- C8 witness: a named index is kept, an unnamed one dropped. -/
theorem upload_dataframe_index_column_witness :
    (uploadPandasDataFrameToTable_csv ⟨some "id", ["0"], ["foo"], [["1"]]⟩ =
      to_csv ⟨some "id", ["0"], ["foo"], [["1"]]⟩ true ∧
     csvHeader ⟨some "id", ["0"], ["foo"], [["1"]]⟩ true = ["id", "foo"]) ∧
    (uploadPandasDataFrameToTable_csv ⟨none, ["0"], ["foo"], [["1"]]⟩ =
      to_csv ⟨none, ["0"], ["foo"], [["1"]]⟩ false ∧
     csvHeader ⟨none, ["0"], ["foo"], [["1"]]⟩ false = ["foo"]) :=
  ⟨(upload_dataframe_index_column ⟨some "id", ["0"], ["foo"], [["1"]]⟩).1
      "id" rfl (by decide),
    (upload_dataframe_index_column ⟨none, ["0"], ["foo"], [["1"]]⟩).2 (Or.inl rfl)⟩

/-- C10: with the default task name, `__taskname_url` re-applies
`__get_taskname` to the already-prefixed default, so the TaskName query
parameter substituted into the URL of `executeQuery` and
`uploadCSVDataToTable` carries the per-environment prefix twice
(`SciScript-Python.CasJobs.SciScript-Python.CasJobs.executeQuery`
outside compute), while the JSON body's TaskName field — present for
`executeQuery`; the CSV upload body is the raw payload with no task
name — carries the singly-prefixed name, so URL and body disagree.
The request-level part is shown over the base URI `"https://cas"` and
context `"MyDB"`. -/
theorem default_taskname_double_prefix (isCompute : Bool)
    (token sql csvData tableName : String) (hne : token ≠ "") :
    __get_taskname false (__get_taskname false TASKNAMES.EXECUTEQUERY) =
      "SciScript-Python.CasJobs.SciScript-Python.CasJobs.executeQuery" ∧
    __get_taskname true (__get_taskname true TASKNAMES.EXECUTEQUERY) =
      "Compute.SciScript-Python.CasJobs.Compute.SciScript-Python.CasJobs.executeQuery" ∧
    __get_taskname isCompute (__get_taskname isCompute TASKNAMES.EXECUTEQUERY) ≠
      __get_taskname isCompute TASKNAMES.EXECUTEQUERY ∧
    (∃ req, executeQuery_request ⟨some token, isCompute, "https://cas"⟩ none sql
        "MyDB" "pandas" = .ok (req, none) ∧
      req.url = "https://cas/contexts/MyDB/query?TaskName=" ++
        __get_taskname isCompute (__get_taskname isCompute TASKNAMES.EXECUTEQUERY) ∧
      req.body = .jsonQuery sql (__get_taskname isCompute TASKNAMES.EXECUTEQUERY)) ∧
    (∃ req, uploadCSVDataToTable_request ⟨some token, isCompute, "https://cas"⟩ none
        csvData tableName "MyDB" = .ok (req, none) ∧
      req.url = "https://cas/contexts/MyDB/query?TaskName=" ++
        __get_taskname isCompute
          (__get_taskname isCompute TASKNAMES.UPLOADCSVDATATOTABLE) ∧
      req.body = .raw csvData) := by
  have ht : __token (some token) = .ok token := by simp [__token, hne]
  have hexec : ∀ ic : Bool,
      executeQuery_request ⟨some token, ic, "https://cas"⟩ none sql "MyDB" "pandas" =
        .ok ({ method := "POST",
               url := pyreplace
                 (pyreplace (URL_DICT_EXECUTEQUERY ⟨some token, ic, "https://cas"⟩)
                   DCONST.CONTEXT_ID "MyDB")
                 DCONST.TASKNAME_ID (__taskname_url ic
                   (__get_taskname ic TASKNAMES.EXECUTEQUERY)),
               headers := [(CASJOBSCONST.X_AUTH_TOKEN, token),
                 (CASJOBSCONST.CONTENT_TYPE, CASJOBSCONST.CONTENT_JSON),
                 (CASJOBSCONST.ACCEPT, "application/json+array")],
               body := __format_data sql (__get_taskname ic TASKNAMES.EXECUTEQUERY) },
             none) := by
    intro ic
    simp [executeQuery_request, ht, __get_headers, __format_to_accept_header,
      consume_task_name, Bind.bind, Except.bind]
  have hup : ∀ ic : Bool,
      uploadCSVDataToTable_request ⟨some token, ic, "https://cas"⟩ none csvData
          tableName "MyDB" =
        .ok ({ method := "POST",
               url := pyreplace
                 (pyreplace
                   (pyreplace (URL_DICT_EXECUTEQUERY ⟨some token, ic, "https://cas"⟩)
                     DCONST.CONTEXT_ID "MyDB")
                   DCONST.TABLENAME_ID tableName)
                 DCONST.TASKNAME_ID (__taskname_url ic
                   (__get_taskname ic TASKNAMES.UPLOADCSVDATATOTABLE)),
               headers := [(CASJOBSCONST.X_AUTH_TOKEN, token)],
               body := .raw csvData },
             none) := by
    intro ic
    simp [uploadCSVDataToTable_request, ht, consume_task_name, Bind.bind, Except.bind]
  refine ⟨by decide, by decide, ?_, ⟨_, hexec isCompute, ?_, rfl⟩,
    ⟨_, hup isCompute, ?_, rfl⟩⟩
  · cases isCompute <;> decide
  · cases isCompute <;> rfl
  · cases isCompute <;> rfl

/-- C10 witness: the doubled URL task name and singly-prefixed body
task name of the default `executeQuery` call outside compute. -/
theorem default_taskname_double_prefix_witness :
    (∃ req, executeQuery_request ⟨some "tok", false, "https://cas"⟩ none "select 1"
        "MyDB" "pandas" = .ok (req, none) ∧
      req.url = "https://cas/contexts/MyDB/query?TaskName=" ++
        __get_taskname false (__get_taskname false TASKNAMES.EXECUTEQUERY) ∧
      req.body = .jsonQuery "select 1" (__get_taskname false TASKNAMES.EXECUTEQUERY)) ∧
    (∃ req, uploadCSVDataToTable_request ⟨some "tok", false, "https://cas"⟩ none
        "a,b\n1,2\n" "NewTable" "MyDB" = .ok (req, none) ∧
      req.url = "https://cas/contexts/MyDB/query?TaskName=" ++
        __get_taskname false
          (__get_taskname false TASKNAMES.UPLOADCSVDATATOTABLE) ∧
      req.body = .raw "a,b\n1,2\n") := by
  have h := default_taskname_double_prefix false "tok" "select 1" "a,b\n1,2\n"
    "NewTable" (by decide)
  exact ⟨h.2.2.2.1, h.2.2.2.2⟩

/-- C9 counterexample: the claim fails on the code at concrete inputs —
a plain GET (`getTables`) does carry a Content-Type header
(`__get_headers` always adds it), and the CSV-upload POST carries
neither a Content-Type nor an Accept header. -/
theorem plain_get_content_type_counterexample :
    (∃ req, getTables_request ⟨some "tok", false, "https://cas"⟩ "MyDB" = .ok req ∧
      req.method = "GET" ∧
      (CASJOBSCONST.CONTENT_TYPE, CASJOBSCONST.CONTENT_JSON) ∈ req.headers) ∧
    (∃ req newState,
      uploadCSVDataToTable_request ⟨some "tok", false, "https://cas"⟩ none
        "a,b\n1,2\n" "T" "MyDB" = .ok (req, newState) ∧
      req.method = "POST" ∧
      (∀ v, (CASJOBSCONST.CONTENT_TYPE, v) ∉ req.headers) ∧
      (∀ v, (CASJOBSCONST.ACCEPT, v) ∉ req.headers)) := by
  constructor
  · refine ⟨{ method := "GET",
               url := "https://cas/contexts/MyDB/Tables?TaskName=SciScript-Python.CasJobs.getTables",
               headers := [(CASJOBSCONST.X_AUTH_TOKEN, "tok"),
                 (CASJOBSCONST.CONTENT_TYPE, CASJOBSCONST.CONTENT_JSON)],
               body := .empty }, ?_, rfl, by simp⟩
    rfl
  · refine ⟨{ method := "POST",
               url := "https://cas/contexts/MyDB/query?TaskName=SciScript-Python.CasJobs.SciScript-Python.CasJobs.uploadCSVDataToTable",
               headers := [(CASJOBSCONST.X_AUTH_TOKEN, "tok")],
               body := .raw "a,b\n1,2\n" }, none, ?_, rfl, ?_, ?_⟩
    · rfl
    · intro v hv
      simp only [List.mem_singleton, Prod.mk.injEq] at hv
      exact absurd hv.1 (by decide)
    · intro v hv
      simp only [List.mem_singleton, Prod.mk.injEq] at hv
      exact absurd hv.1 (by decide)

/-- C9 amended: every modeled request carries the auth-token header;
every request built through the shared header builder — the GETs, the
DELETE, the PUT and the query POSTs, plain GETs included — also carries
the Content-Type header `application/json`; the `executeQuery` POST,
the async query POSTs and the `submitJob` PUT additionally carry an
Accept header selected per the format-dispatch table; the CSV-upload
POST carries only the auth-token header. -/
theorem request_headers_spec (env : CasJobsEnv)
    (token context sql format csvData tableName accept : String) (jobId : Nat)
    (taskState : Option String)
    (htok : env.tokenOpt = some token) (hne : token ≠ "")
    (hfmt : __format_to_accept_header format = .ok accept) :
    (∃ req, getTables_request env context = .ok req ∧
      req.headers = [(CASJOBSCONST.X_AUTH_TOKEN, token),
        (CASJOBSCONST.CONTENT_TYPE, CASJOBSCONST.CONTENT_JSON)]) ∧
    (∃ req, getJobStatus_request env jobId = .ok req ∧
      req.headers = [(CASJOBSCONST.X_AUTH_TOKEN, token),
        (CASJOBSCONST.CONTENT_TYPE, CASJOBSCONST.CONTENT_JSON)]) ∧
    (∃ req, cancelJob_request env jobId = .ok req ∧
      req.headers = [(CASJOBSCONST.X_AUTH_TOKEN, token),
        (CASJOBSCONST.CONTENT_TYPE, CASJOBSCONST.CONTENT_JSON)]) ∧
    (∃ req, submitJob_request env sql context = .ok req ∧
      req.headers = [(CASJOBSCONST.X_AUTH_TOKEN, token),
        (CASJOBSCONST.CONTENT_TYPE, CASJOBSCONST.CONTENT_JSON),
        (CASJOBSCONST.ACCEPT, "text/plain")]) ∧
    (∃ req newState,
      executeQuery_request env taskState sql context format = .ok (req, newState) ∧
      req.headers = [(CASJOBSCONST.X_AUTH_TOKEN, token),
        (CASJOBSCONST.CONTENT_TYPE, CASJOBSCONST.CONTENT_JSON),
        (CASJOBSCONST.ACCEPT, accept)]) ∧
    (∃ req newState,
      uploadCSVDataToTable_request env taskState csvData tableName context =
        .ok (req, newState) ∧
      req.headers = [(CASJOBSCONST.X_AUTH_TOKEN, token)]) ∧
    __get_headers token (some "json") =
      .ok [(CASJOBSCONST.X_AUTH_TOKEN, token),
        (CASJOBSCONST.CONTENT_TYPE, CASJOBSCONST.CONTENT_JSON),
        (CASJOBSCONST.ACCEPT, "application/json+array")] := by
  have ht : __token env.tokenOpt = .ok token := by simp [__token, htok, hne]
  have h1 : getTables_request env context = .ok
      { method := "GET",
        url := pyreplace (URL_DICT_GETTABLES env) DCONST.CONTEXT_ID context,
        headers := [(CASJOBSCONST.X_AUTH_TOKEN, token),
          (CASJOBSCONST.CONTENT_TYPE, CASJOBSCONST.CONTENT_JSON)],
        body := .empty } := by
    simp [getTables_request, ht, __get_headers, Bind.bind, Except.bind]
  have h2 : getJobStatus_request env jobId = .ok
      { method := "GET",
        url := pyreplace (URL_DICT_GETJOBSTATUS env) DCONST.JOB_ID (toString jobId),
        headers := [(CASJOBSCONST.X_AUTH_TOKEN, token),
          (CASJOBSCONST.CONTENT_TYPE, CASJOBSCONST.CONTENT_JSON)],
        body := .empty } := by
    simp [getJobStatus_request, ht, __get_headers, Bind.bind, Except.bind]
  have h3 : cancelJob_request env jobId = .ok
      { method := "DELETE",
        url := pyreplace (URL_DICT_CANCELJOB env) DCONST.JOB_ID (toString jobId),
        headers := [(CASJOBSCONST.X_AUTH_TOKEN, token),
          (CASJOBSCONST.CONTENT_TYPE, CASJOBSCONST.CONTENT_JSON)],
        body := .empty } := by
    simp [cancelJob_request, ht, __get_headers, Bind.bind, Except.bind]
  have h4 : submitJob_request env sql context = .ok
      { method := "PUT",
        url := pyreplace (URL_DICT_SUBMITJOB env) DCONST.CONTEXT_ID context,
        headers := [(CASJOBSCONST.X_AUTH_TOKEN, token),
          (CASJOBSCONST.CONTENT_TYPE, CASJOBSCONST.CONTENT_JSON),
          (CASJOBSCONST.ACCEPT, "text/plain")],
        body := __format_data sql (__get_taskname env.isCompute TASKNAMES.SUBMITJOB) } := by
    simp [submitJob_request, ht, __get_headers, __format_to_accept_header,
      Bind.bind, Except.bind]
  have h5 : executeQuery_request env taskState sql context format = .ok
      ({ method := "POST",
         url := pyreplace
           (pyreplace (URL_DICT_EXECUTEQUERY env) DCONST.CONTEXT_ID context)
           DCONST.TASKNAME_ID (__taskname_url env.isCompute
             (consume_task_name taskState
               (__get_taskname env.isCompute TASKNAMES.EXECUTEQUERY)).1),
         headers := [(CASJOBSCONST.X_AUTH_TOKEN, token),
           (CASJOBSCONST.CONTENT_TYPE, CASJOBSCONST.CONTENT_JSON),
           (CASJOBSCONST.ACCEPT, accept)],
         body := __format_data sql
           (consume_task_name taskState
             (__get_taskname env.isCompute TASKNAMES.EXECUTEQUERY)).1 },
       (consume_task_name taskState
         (__get_taskname env.isCompute TASKNAMES.EXECUTEQUERY)).2) := by
    simp [executeQuery_request, ht, hfmt, __get_headers, Bind.bind, Except.bind]
  have h6 : uploadCSVDataToTable_request env taskState csvData tableName context = .ok
      ({ method := "POST",
         url := pyreplace
           (pyreplace
             (pyreplace (URL_DICT_EXECUTEQUERY env) DCONST.CONTEXT_ID context)
             DCONST.TABLENAME_ID tableName)
           DCONST.TASKNAME_ID (__taskname_url env.isCompute
             (consume_task_name taskState
               (__get_taskname env.isCompute TASKNAMES.UPLOADCSVDATATOTABLE)).1),
         headers := [(CASJOBSCONST.X_AUTH_TOKEN, token)],
         body := .raw csvData },
       (consume_task_name taskState
         (__get_taskname env.isCompute TASKNAMES.UPLOADCSVDATATOTABLE)).2) := by
    simp [uploadCSVDataToTable_request, ht, Bind.bind, Except.bind]
  exact ⟨⟨_, h1, rfl⟩, ⟨_, h2, rfl⟩, ⟨_, h3, rfl⟩, ⟨_, h4, rfl⟩,
    ⟨_, _, h5, rfl⟩, ⟨_, _, h6, rfl⟩, rfl⟩

/-- C9 amended witness: the headers of the modeled requests at concrete
inputs. -/
theorem request_headers_spec_witness :
    (∃ req, getTables_request ⟨some "tok", false, "https://cas"⟩ "MyDB" = .ok req ∧
      req.headers = [(CASJOBSCONST.X_AUTH_TOKEN, "tok"),
        (CASJOBSCONST.CONTENT_TYPE, CASJOBSCONST.CONTENT_JSON)]) ∧
    (∃ req newState,
      uploadCSVDataToTable_request ⟨some "tok", false, "https://cas"⟩ none
        "a,b" "T" "MyDB" = .ok (req, newState) ∧
      req.headers = [(CASJOBSCONST.X_AUTH_TOKEN, "tok")]) := by
  have h := request_headers_spec ⟨some "tok", false, "https://cas"⟩ "tok" "MyDB"
    "select 1" "pandas" "a,b" "T" "application/json+array" 3 none rfl (by decide) rfl
  exact ⟨h.1, h.2.2.2.2.2.1⟩

/-- C6, evaluated at the failing input: with a valid token and a server
answering 200 with a well-formed single-result-set document for every
query, requesting a combined-table format makes `executeQueryAsync`
raise `TypeError: list indices must be integers or slices, not str` —
the combine loop subscripts the already-stripped per-query list (the
bare list `__make_post_request` returns) with the string key
`"Result"` — instead of returning any combined table. -/
theorem executeQueryAsync_combined_format_typeerror :
    executeQueryAsync (some "tok")
      (fun _ => { status := 200, text := "",
                  json := .dict [("Result", .list [.dict
                    [("Columns", .list [.str "foo"]),
                     ("Data", .list [.list [.int 1]])]])] })
      (.many ["select 1 as foo", "select 2 as foo"]) (some "pandas") =
    .error (.typeError "list indices must be integers or slices, not str") := rfl

end SciServer
